import Mathlib

/-!
Verification of the 2xCustoms lead-capture application (src/src/App.jsx).

The development shallowly embeds the submission pipeline (the two forms,
`useFirebase.addSubmission`, `useFirebase.fetchSubmissions`) and the admin
gate (`AdminLogin.handleSubmitPassword`, `AdminLogin.handleSubmitFirebase`,
`App.handleAdminSuccess`, `App.handleLogoutAdmin`, `App.navigate`,
`App.renderPage`). The external Firestore adapter is modelled as an explicit
store value; the external identity adapter sign-in is a function parameter
returning a result. Machine effects (localStorage, the appended collection)
are explicit state.
-/

namespace TwoXCustoms

/-! ## Data model: submission records and the store -/

/-- Metadata captured by `CustomForm.handleImageUpload` (App.jsx line 400):
only the file name, byte size and mime type are recorded; no bytes are
stored or transmitted. -/
structure ImageMeta where
  name : String
  size : Nat
  mime : String
deriving DecidableEq, Repr

/-- Union of the field maps the two forms write (App.jsx lines 409-418 and
710-715). Fields that a given form does not set are `none` (absent in the
document). -/
structure SubmissionData where
  type : String
  status : Option String
  name : String
  email : String
  shoeModel : Option String
  designRequest : Option String
  budget : Option String
  imageFile : Option String
  message : Option String
deriving DecidableEq, Repr

/-- A document as stored in the remote collection after
`useFirebase.addSubmission` injects `userId` and the server-assigned
`timestamp` (App.jsx lines 238-242) and the store assigns the id. -/
structure StoredDoc where
  id : Nat
  data : SubmissionData
  userId : Option String
  timestamp : Nat
deriving DecidableEq, Repr

/-- State of the remote collection adapter. `dbReady` is whether the
Firestore handle exists (`FIREBASE_CONFIG` present and initialization
succeeded, so `getSubmissionsCollectionRef` is non-null, App.jsx lines
225-228). `writeFails` and `readFails` model `addDoc` and `getDocs`
throwing; `writeErrMsg` is the opaque adapter error message passed through.
`nextId` and `now` model the store-assigned document id and the
server-assigned timestamp, both advanced on each successful write. -/
structure FireStore where
  dbReady : Bool
  writeFails : Bool
  readFails : Bool
  writeErrMsg : String
  nextId : Nat
  now : Nat
  docs : List StoredDoc
deriving DecidableEq, Repr

/-- Result of `useFirebase.addSubmission`: either the store-assigned doc id
or an error message. -/
inductive AddResult where
  | ok (docId : Nat)
  | err (msg : String)
deriving DecidableEq, Repr

/-- `useFirebase.addSubmission` (App.jsx lines 230-248): when the database
handle is missing the call returns the "Database not ready." failure and
never reaches `addDoc`; when `addDoc` throws, the error message is passed
through and the collection is unchanged; otherwise one document is appended
with the injected `userId` and server timestamp, and its id is returned. -/
def addSubmission (uid : Option String) (fs : FireStore) (data : SubmissionData) :
    AddResult × FireStore :=
  if fs.dbReady = false then
    (AddResult.err "Database not ready.", fs)
  else if fs.writeFails then
    (AddResult.err fs.writeErrMsg, fs)
  else
    (AddResult.ok fs.nextId,
      { fs with
          docs := fs.docs ++ [{ id := fs.nextId, data := data, userId := uid,
                                timestamp := fs.now }],
          nextId := fs.nextId + 1,
          now := fs.now + 1 })

/-- Descending-timestamp order used by the admin listing: `tsGE a b` holds
when the document `a` is at least as recent as `b`. -/
def tsGE (a b : StoredDoc) : Prop := b.timestamp ≤ a.timestamp

instance : DecidableRel tsGE := fun a b => Nat.decLe b.timestamp a.timestamp

instance : IsTotal StoredDoc tsGE :=
  ⟨fun a b => le_total b.timestamp a.timestamp⟩

instance : IsTrans StoredDoc tsGE :=
  ⟨fun _ _ _ h1 h2 => le_trans h2 h1⟩

/-- `useFirebase.fetchSubmissions` (App.jsx lines 250-268): an empty list
when the database handle is missing; an empty list when the read throws;
otherwise the result of the query `orderBy timestamp desc, limit 50`,
modelled by its documented semantics: the documents sorted most-recent
first, truncated to 50. (The component afterwards formats each timestamp
for display; the ordering property concerns the server timestamps of the
returned documents.) -/
def fetchSubmissions (fs : FireStore) : List StoredDoc :=
  if fs.dbReady = false then []
  else if fs.readFails then []
  else (List.insertionSort tsGE fs.docs).take 50

/-! ## The two forms -/

/-- `CustomForm` field state (App.jsx line 384). -/
structure CustomFormState where
  name : String
  email : String
  shoeModel : String
  designRequest : String
  budget : String
  image : Option ImageMeta
deriving DecidableEq, Repr

/-- The initial (and reset) `CustomForm` state, App.jsx lines 384 and 425. -/
def customInitial : CustomFormState :=
  { name := "", email := "", shoeModel := "", designRequest := "",
    budget := "", image := none }

/-- `ContactForm` field state (App.jsx line 697). -/
structure ContactFormState where
  name : String
  email : String
  message : String
deriving DecidableEq, Repr

/-- The initial (and reset) `ContactForm` state, App.jsx lines 697 and 721. -/
def contactInitial : ContactFormState :=
  { name := "", email := "", message := "" }

/-- The four options of the budget select (App.jsx line 388). -/
def budgetOptions : List String := ["<$50", "$50-$100", "$100-$200", "$200+"]

/-- Models the JS `(size / 1024).toFixed(1)` kilobyte label (App.jsx line
417): the size in KB rounded to one decimal place (half up). No claim
depends on the exact rounding of this display string. -/
def fmtKBTenths (size : Nat) : String :=
  let t := (size * 10 + 512) / 1024
  toString (t / 10) ++ "." ++ toString (t % 10)

/-- The `imageFile` string of a custom booking (App.jsx line 417). -/
def imageLabel : Option ImageMeta → String
  | none => "No image uploaded"
  | some m => m.name ++ " (" ++ fmtKBTenths m.size ++ " KB)"

/-- The document fields built by `CustomForm.handleSubmit`
(App.jsx lines 409-418). -/
def buildCustomData (f : CustomFormState) : SubmissionData :=
  { type := "custom_booking", status := some "New",
    name := f.name, email := f.email,
    shoeModel := some f.shoeModel,
    designRequest := some f.designRequest,
    budget := some f.budget,
    imageFile := some (imageLabel f.image),
    message := none }

/-- The document fields built by `ContactForm.handleSubmit`
(App.jsx lines 710-715). -/
def buildContactData (f : ContactFormState) : SubmissionData :=
  { type := "contact_message", status := none,
    name := f.name, email := f.email,
    shoeModel := none, designRequest := none, budget := none,
    imageFile := none,
    message := some f.message }

/-- Native constraint validation of the custom form: every input of the
form carries the `required` attribute (App.jsx lines 456, 460, 466, 471,
477), so the browser dispatches the submit event only when all of them are
non-empty. (The `type="email"` input additionally checks the email format;
that refinement only further restricts when the handler runs and no claim
depends on it, so it is not modelled.) -/
def customRequiredOk (f : CustomFormState) : Bool :=
  !(f.name == "") && !(f.email == "") && !(f.shoeModel == "") &&
    !(f.designRequest == "") && !(f.budget == "")

/-- Native constraint validation of the contact form: name, email and
message all carry `required` (App.jsx lines 751, 755, 759). -/
def contactRequiredOk (f : ContactFormState) : Bool :=
  !(f.name == "") && !(f.email == "") && !(f.message == "")

/-- Outcome of one submit interaction. `blocked` means the native
constraint validation rejected the form before the handler ran, so no store
call was made; otherwise the handler ran and `ok`/`err` is the
`addSubmission` result. -/
inductive SubmitOutcome where
  | blocked
  | ok (docId : Nat)
  | err (msg : String)
deriving DecidableEq, Repr

/-- One submit of the custom form: the required-field gate, then
`CustomForm.handleSubmit` (App.jsx lines 404-432), which builds the
document, calls `addSubmission`, resets the form on success and leaves it
untouched on failure. Returns the form state after the attempt, the
outcome, and the store after the attempt. -/
def customSubmit (uid : Option String) (fs : FireStore) (f : CustomFormState) :
    CustomFormState × SubmitOutcome × FireStore :=
  if customRequiredOk f = false then (f, SubmitOutcome.blocked, fs)
  else
    match addSubmission uid fs (buildCustomData f) with
    | (AddResult.ok i, fs2) => (customInitial, SubmitOutcome.ok i, fs2)
    | (AddResult.err e, fs2) => (f, SubmitOutcome.err e, fs2)

/-- One submit of the contact form: the required-field gate, then
`ContactForm.handleSubmit` (App.jsx lines 706-728). -/
def contactSubmit (uid : Option String) (fs : FireStore) (f : ContactFormState) :
    ContactFormState × SubmitOutcome × FireStore :=
  if contactRequiredOk f = false then (f, SubmitOutcome.blocked, fs)
  else
    match addSubmission uid fs (buildContactData f) with
    | (AddResult.ok i, fs2) => (contactInitial, SubmitOutcome.ok i, fs2)
    | (AddResult.err e, fs2) => (f, SubmitOutcome.err e, fs2)

/-! ## Admin gate, router and render dispatch -/

/-- Combined client-side state relevant to the admin gate and router:
`App.page`, `App.adminAuth`, the localStorage value at key
`2x_admin_auth` (`none` when the key is absent), `App.adminModalOpen`,
and the `AdminLogin` component state `password`, `email`, `error`. -/
structure GateState where
  page : String
  adminAuth : Bool
  localFlag : Option String
  adminModalOpen : Bool
  password : String
  email : String
  errorMsg : String
deriving DecidableEq, Repr

/-- `App.handleAdminSuccess` (App.jsx lines 1001-1005): sets `adminAuth`,
writes `'true'` to localStorage key `2x_admin_auth`, and navigates to the
submissions page. It is the shared `onSuccess` callback of both login
modes. -/
def handleAdminSuccess (st : GateState) : GateState :=
  { st with adminAuth := true, localFlag := some "true", page := "submissions" }

/-- `AdminLogin.handleSubmitPassword` (App.jsx lines 107-120), Mode A.
`ADMIN_PASSWORD` is the configured secret or JS `null` when none is
configured, modelled as `Option String`; the JS strict equality
`password === ADMIN_PASSWORD` is false whenever `ADMIN_PASSWORD` is null
(a string is never `===` null) and is exact string equality otherwise,
which is `some st.password == cfg`. On a match: `onSuccess()`
(`handleAdminSuccess`), the password and error fields are cleared and the
modal closes; otherwise the inline error "Invalid password" is set. -/
def handleSubmitPassword (cfg : Option String) (st : GateState) : GateState :=
  if some st.password == cfg then
    { handleAdminSuccess st with
        password := "", errorMsg := "", adminModalOpen := false }
  else
    { st with errorMsg := "Invalid password" }

/-- Result of the identity-adapter sign-in call
(`useFirebase.signInAdminWithEmail`, App.jsx lines 270-280). -/
inductive SignInRes where
  | ok
  | failure (msg : String)
deriving DecidableEq, Repr

/-- `AdminLogin.handleSubmitFirebase` (App.jsx lines 122-137), Mode B. The
sign-in call to the identity adapter is the function parameter `signIn`.
The error is first cleared; empty email or password short-circuits with an
inline error and no sign-in call; on adapter success `onSuccess()`
(`handleAdminSuccess`) runs, the fields are cleared and the modal closes;
on adapter failure the adapter message (or the fallback text when the
message is empty, modelling the JS `||`) is surfaced verbatim. -/
def handleSubmitFirebase (signIn : String → String → SignInRes)
    (st : GateState) : GateState :=
  let st1 := { st with errorMsg := "" }
  if st1.email == "" || st1.password == "" then
    { st1 with errorMsg := "Please enter email and password" }
  else
    match signIn st1.email st1.password with
    | SignInRes.ok =>
        { handleAdminSuccess st1 with
            email := "", password := "", adminModalOpen := false }
    | SignInRes.failure msg =>
        { st1 with errorMsg := if msg == "" then "Sign-in failed" else msg }

/-- `App.handleLogoutAdmin` (App.jsx lines 1007-1013): clears `adminAuth`,
removes the localStorage key `2x_admin_auth`, delegates the identity
sign-out to the adapter (`signOutAdmin`, purely external so no further
local state), and navigates home. -/
def handleLogoutAdmin (st : GateState) : GateState :=
  { st with adminAuth := false, localFlag := none, page := "home" }

/-- The `App.adminAuth` initializer (App.jsx lines 992-998): the start-up
rehydration reads the localStorage key and compares it to `'true'`
(`localStorage.getItem` yields null when the key is absent, so an absent
key rehydrates to false). -/
def initAdminAuth (flag : Option String) : Bool := flag == some "true"

/-- `App.navigate` (App.jsx line 989): unconditionally replaces the current
page token; no other state is consulted or changed. -/
def navigate (st : GateState) (tok : String) : GateState :=
  { st with page := tok }

/-- The renderable views dispatched by `App.renderPage`. -/
inductive View where
  | loadingView
  | customFormView
  | cleaningView
  | galleryView
  | pricingView
  | aboutView
  | contactView
  | dashboardView
  | adminPromptView
  | homeView
deriving DecidableEq, Repr

/-- `App.renderPage` (App.jsx lines 1015-1050): the loading screen while
the adapter initializes, then the switch on the page token; for the
`submissions` token the dashboard is rendered only when `adminAuth` holds,
otherwise the admin login prompt; unknown tokens fall through to home. -/
def renderPage (ready : Bool) (st : GateState) : View :=
  if ready = false then View.loadingView
  else if st.page == "custom" then View.customFormView
  else if st.page == "cleaning" then View.cleaningView
  else if st.page == "gallery" then View.galleryView
  else if st.page == "pricing" then View.pricingView
  else if st.page == "about" then View.aboutView
  else if st.page == "contact" then View.contactView
  else if st.page == "submissions" then
    (if st.adminAuth then View.dashboardView else View.adminPromptView)
  else View.homeView

/-! ## Concrete states used by witnesses -/

/-- A logged-out gate state with the documented example secret typed into
the password field. -/
def gateA : GateState :=
  { page := "home", adminAuth := false, localFlag := none,
    adminModalOpen := true, password := "PizzaWhite70", email := "",
    errorMsg := "" }

/-- A logged-out gate state with Mode B credentials typed in. -/
def gateB : GateState :=
  { page := "home", adminAuth := false, localFlag := none,
    adminModalOpen := true, password := "pw12345",
    email := "admin@example.com", errorMsg := "" }

/-- A gate state sitting on the submissions page without admin rights. -/
def gateNav : GateState :=
  { page := "submissions", adminAuth := false, localFlag := none,
    adminModalOpen := false, password := "", email := "", errorMsg := "" }

/-- An identity adapter that accepts any credentials. -/
def signInAlwaysOk : String → String → SignInRes := fun _ _ => SignInRes.ok

/-! ## Claim theorems -/

/-- C1: Mode A admin login. For every input, `handleSubmitPassword`
(starting from the logged-out gate) reaches the logged-in state exactly
when the typed password equals the configured secret (exact, case-sensitive
string equality, no trimming); when no secret is configured the attempt
never succeeds and the inline error "Invalid password" is reported. -/
theorem modeA_attemptPassword_iff_secret (cfg : Option String)
    (st : GateState) (h0 : st.adminAuth = false) :
    ((handleSubmitPassword cfg st).adminAuth = true ↔ cfg = some st.password) ∧
    (cfg = none →
      (handleSubmitPassword cfg st).adminAuth = false ∧
      (handleSubmitPassword cfg st).errorMsg = "Invalid password") := by
  unfold handleSubmitPassword handleAdminSuccess
  split
  next h =>
    have heq : cfg = some st.password := (beq_iff_eq.mp h).symm
    refine ⟨by simp [heq], ?_⟩
    intro hn
    rw [hn] at heq
    cases heq
  next h =>
    have hne : cfg ≠ some st.password := by
      intro hcon
      exact h (by simp [hcon])
    exact ⟨by simp [h0, hne], fun _ => ⟨h0, rfl⟩⟩

/-- Witness for C1 at the documented example secret. -/
theorem modeA_attemptPassword_iff_secret_witness :
    gateA.adminAuth = false ∧
    (((handleSubmitPassword (some "PizzaWhite70") gateA).adminAuth = true ↔
        some "PizzaWhite70" = some gateA.password) ∧
      (some "PizzaWhite70" = (none : Option String) →
        (handleSubmitPassword (some "PizzaWhite70") gateA).adminAuth = false ∧
        (handleSubmitPassword (some "PizzaWhite70") gateA).errorMsg =
          "Invalid password")) :=
  ⟨rfl, modeA_attemptPassword_iff_secret (some "PizzaWhite70") gateA rfl⟩

/-- C3 counterexample: a successful Mode B (delegated identity) sign-in
does write persisted local state. Starting with no stored flag, a
successful `handleSubmitFirebase` leaves the durable localStorage admin
flag set to "true", because both modes share `handleAdminSuccess`. -/
theorem modeB_counterexample :
    gateB.localFlag = none ∧
    (handleSubmitFirebase signInAlwaysOk gateB).localFlag = some "true" :=
  ⟨rfl, by decide⟩

/-- C3 (amended): a successful Mode B sign-in runs the shared
`handleAdminSuccess`, so it sets the in-memory admin flag AND writes the
durable localStorage admin flag to "true" (the identity adapter session is
additional, not the sole persistence). -/
theorem modeB_success_sets_local_flag (signIn : String → String → SignInRes)
    (st : GateState) (he : st.email ≠ "") (hp : st.password ≠ "")
    (hs : signIn st.email st.password = SignInRes.ok) :
    (handleSubmitFirebase signIn st).adminAuth = true ∧
    (handleSubmitFirebase signIn st).localFlag = some "true" ∧
    (handleSubmitFirebase signIn st).page = "submissions" := by
  unfold handleSubmitFirebase handleAdminSuccess
  simp [he, hp, hs]

/-- Witness for the amended C3. -/
theorem modeB_success_sets_local_flag_witness :
    gateB.email ≠ "" ∧ gateB.password ≠ "" ∧
    signInAlwaysOk gateB.email gateB.password = SignInRes.ok ∧
    ((handleSubmitFirebase signInAlwaysOk gateB).adminAuth = true ∧
      (handleSubmitFirebase signInAlwaysOk gateB).localFlag = some "true" ∧
      (handleSubmitFirebase signInAlwaysOk gateB).page = "submissions") :=
  ⟨by decide, by decide, rfl,
    modeB_success_sets_local_flag signInAlwaysOk gateB (by decide) (by decide)
      rfl⟩

/-- C7: `handleLogoutAdmin` always returns the gate to the logged-out
state, removes the persisted Mode-A localStorage flag, and a subsequent
restart rehydrates to logged-out (the start-up read of the removed flag
yields false). -/
theorem logout_clears_gate_and_flag (st : GateState) :
    (handleLogoutAdmin st).adminAuth = false ∧
    (handleLogoutAdmin st).localFlag = none ∧
    initAdminAuth (handleLogoutAdmin st).localFlag = false :=
  ⟨rfl, rfl, rfl⟩

/-- C9: `navigate` replaces the current page token unconditionally (no
router-level guard, also for the admin-only submissions token), and
authorization is enforced at render time: the dashboard view is never
rendered without `adminAuth`, and once the adapter is ready, the
submissions token without `adminAuth` renders the admin login prompt. -/
theorem navigate_unguarded_render_guarded (st : GateState) (tok : String)
    (ready : Bool) :
    (navigate st tok).page = tok ∧
    (st.adminAuth = false → renderPage ready st ≠ View.dashboardView) ∧
    (ready = true → st.page = "submissions" → st.adminAuth = false →
      renderPage ready st = View.adminPromptView) := by
  refine ⟨rfl, ?_, ?_⟩
  · intro h
    unfold renderPage
    repeat' split
    all_goals simp_all
  · intro hr hp h
    unfold renderPage
    simp [hr, hp, h]

/-- Witness for C9: direct navigation to the submissions token without
admin rights renders the login prompt. -/
theorem navigate_unguarded_render_guarded_witness :
    (navigate gateNav "submissions").page = "submissions" ∧
    (gateNav.adminAuth = false →
      renderPage true gateNav ≠ View.dashboardView) ∧
    (true = true → gateNav.page = "submissions" → gateNav.adminAuth = false →
      renderPage true gateNav = View.adminPromptView) ∧
    renderPage true gateNav = View.adminPromptView :=
  ⟨(navigate_unguarded_render_guarded gateNav "submissions" true).1,
    (navigate_unguarded_render_guarded gateNav "submissions" true).2.1,
    (navigate_unguarded_render_guarded gateNav "submissions" true).2.2,
    (navigate_unguarded_render_guarded gateNav "submissions" true).2.2 rfl rfl
      rfl⟩

/-- A ready store with no documents yet. -/
def fsReady : FireStore :=
  { dbReady := true, writeFails := false, readFails := false,
    writeErrMsg := "permission denied", nextId := 1, now := 10, docs := [] }

/-- A store whose backend descriptor is absent (adapter uninitialized). -/
def fsDead : FireStore :=
  { dbReady := false, writeFails := false, readFails := false,
    writeErrMsg := "x", nextId := 0, now := 0, docs := [] }

/-- A ready store whose reads fail. -/
def fsReadBad : FireStore :=
  { dbReady := true, writeFails := false, readFails := true,
    writeErrMsg := "x", nextId := 3, now := 7, docs := [] }

/-- A ready store whose writes fail. -/
def fsWriteBad : FireStore :=
  { dbReady := true, writeFails := true, readFails := false,
    writeErrMsg := "permission denied", nextId := 3, now := 7, docs := [] }

/-- A fully filled contact form. -/
def contactEx : ContactFormState :=
  { name := "Ann", email := "ann@example.com", message := "hello" }

/-- A contact form whose message field is empty. -/
def contactEmptyMsg : ContactFormState :=
  { name := "Ann", email := "ann@example.com", message := "" }

/-- A fully filled custom-booking form with a bucketed budget. -/
def customEx : CustomFormState :=
  { name := "Bob", email := "bob@example.com", shoeModel := "Air Force 1",
    designRequest := "red flames on the swoosh", budget := "<$50",
    image := none }

/-- C2: a contact submission with an empty message (and in general with any
required field empty) is rejected by the form validation before any store
call: the outcome is `blocked`, the store is unchanged (no record added),
and the form state is untouched. The rejection is the native constraint
validation induced by the `required` attributes on the three fields; the
handler itself is never invoked for such input. -/
theorem contact_empty_message_rejected (uid : Option String)
    (fs : FireStore) (f : ContactFormState)
    (h : f.name = "" ∨ f.email = "" ∨ f.message = "") :
    contactSubmit uid fs f = (f, SubmitOutcome.blocked, fs) := by
  have hv : contactRequiredOk f = false := by
    unfold contactRequiredOk
    rcases h with h | h | h <;> simp [h]
  unfold contactSubmit
  simp [hv]

/-- Witness for C2 on a concrete empty-message submission. -/
theorem contact_empty_message_rejected_witness :
    (contactEmptyMsg.name = "" ∨ contactEmptyMsg.email = "" ∨
      contactEmptyMsg.message = "") ∧
    contactSubmit (some "u1") fsReady contactEmptyMsg =
      (contactEmptyMsg, SubmitOutcome.blocked, fsReady) :=
  ⟨Or.inr (Or.inr rfl),
    contact_empty_message_rejected (some "u1") fsReady contactEmptyMsg
      (Or.inr (Or.inr rfl))⟩

/-- C4: a valid custom-booking submission (all required fields non-empty,
budget one of the four configured buckets) against a working store appends
exactly one document; that document carries the `custom_booking` kind tag,
status "New", and every submitted field unmodified, with the budget equal
to one of the four configured literals. -/
theorem custom_valid_writes_record (uid : Option String) (fs : FireStore)
    (f : CustomFormState) (hv : customRequiredOk f = true)
    (hb : f.budget ∈ budgetOptions) (h1 : fs.dbReady = true)
    (h2 : fs.writeFails = false) :
    ∃ d : StoredDoc,
      (customSubmit uid fs f).2.2.docs = fs.docs ++ [d] ∧
      (customSubmit uid fs f).2.1 = SubmitOutcome.ok d.id ∧
      d.data.type = "custom_booking" ∧
      d.data.status = some "New" ∧
      d.data.name = f.name ∧
      d.data.email = f.email ∧
      d.data.shoeModel = some f.shoeModel ∧
      d.data.designRequest = some f.designRequest ∧
      d.data.budget = some f.budget ∧
      f.budget ∈ budgetOptions := by
  refine ⟨{ id := fs.nextId, data := buildCustomData f, userId := uid,
            timestamp := fs.now }, ?_⟩
  unfold customSubmit addSubmission
  simp [hv, h1, h2, buildCustomData, hb]

/-- Witness for C4 on a concrete valid booking. -/
theorem custom_valid_writes_record_witness :
    customRequiredOk customEx = true ∧
    customEx.budget ∈ budgetOptions ∧
    fsReady.dbReady = true ∧
    fsReady.writeFails = false ∧
    (∃ d : StoredDoc,
      (customSubmit (some "u1") fsReady customEx).2.2.docs =
        fsReady.docs ++ [d] ∧
      (customSubmit (some "u1") fsReady customEx).2.1 =
        SubmitOutcome.ok d.id ∧
      d.data.type = "custom_booking" ∧
      d.data.status = some "New" ∧
      d.data.name = customEx.name ∧
      d.data.email = customEx.email ∧
      d.data.shoeModel = some customEx.shoeModel ∧
      d.data.designRequest = some customEx.designRequest ∧
      d.data.budget = some customEx.budget ∧
      customEx.budget ∈ budgetOptions) :=
  ⟨by decide, by decide, rfl, rfl,
    custom_valid_writes_record (some "u1") fsReady customEx (by decide)
      (by decide) rfl rfl⟩

/-- C5: with the backend descriptor absent (store uninitialized) both
submit operations return the "Database not ready." failure with the store
unchanged (no write attempted), while the listing returns the empty
sequence rather than an error; the listing is likewise the empty sequence
whenever the store read fails. -/
theorem store_unavailable_behaviour (uid : Option String)
    (fs fr : FireStore) (f : ContactFormState) (g : CustomFormState)
    (hdb : fs.dbReady = false) (hf : contactRequiredOk f = true)
    (hg : customRequiredOk g = true) (hr : fr.readFails = true) :
    contactSubmit uid fs f = (f, SubmitOutcome.err "Database not ready.", fs) ∧
    customSubmit uid fs g = (g, SubmitOutcome.err "Database not ready.", fs) ∧
    fetchSubmissions fs = [] ∧
    fetchSubmissions fr = [] := by
  unfold contactSubmit customSubmit addSubmission fetchSubmissions
  simp [hdb, hf, hg, hr]

/-- Witness for C5 on concrete stores. -/
theorem store_unavailable_behaviour_witness :
    fsDead.dbReady = false ∧
    contactRequiredOk contactEx = true ∧
    customRequiredOk customEx = true ∧
    fsReadBad.readFails = true ∧
    (contactSubmit (some "u1") fsDead contactEx =
        (contactEx, SubmitOutcome.err "Database not ready.", fsDead) ∧
      customSubmit (some "u1") fsDead customEx =
        (customEx, SubmitOutcome.err "Database not ready.", fsDead) ∧
      fetchSubmissions fsDead = [] ∧
      fetchSubmissions fsReadBad = []) :=
  ⟨rfl, by decide, by decide, rfl,
    store_unavailable_behaviour (some "u1") fsDead fsReadBad contactEx
      customEx rfl (by decide) (by decide) rfl⟩

/-- C6: the admin listing never returns more than 50 documents, and it is
pairwise ordered most-recent first: whenever document `a` appears before
document `b` in the result, `b.timestamp ≤ a.timestamp` (that is
`tsGE a b`). -/
theorem fetch_bounded_and_sorted (fs : FireStore) :
    (fetchSubmissions fs).length ≤ 50 ∧
    (fetchSubmissions fs).Pairwise tsGE := by
  unfold fetchSubmissions
  split
  · simp
  · split
    · simp
    · refine ⟨?_, ?_⟩
      · calc ((List.insertionSort tsGE fs.docs).take 50).length
            = min 50 (List.insertionSort tsGE fs.docs).length :=
              List.length_take 50 _
          _ ≤ 50 := min_le_left _ _
      · exact List.Pairwise.sublist (List.take_sublist 50 _)
          (List.sorted_insertionSort tsGE fs.docs)

/-- C8: when a submission attempt fails to write (store uninitialized or
the write rejected), the field state of both forms after the attempt is
unchanged, so the user can resubmit the same contents; no success outcome
is produced by a failing attempt. -/
theorem failure_preserves_form (uid : Option String) (fs : FireStore)
    (fc : CustomFormState) (ff : ContactFormState)
    (h : fs.dbReady = false ∨ fs.writeFails = true) :
    (customSubmit uid fs fc).1 = fc ∧
    (contactSubmit uid fs ff).1 = ff ∧
    (∀ i, (customSubmit uid fs fc).2.1 ≠ SubmitOutcome.ok i) ∧
    (∀ i, (contactSubmit uid fs ff).2.1 ≠ SubmitOutcome.ok i) := by
  have hadd : ∀ d : SubmissionData,
      ∃ e, addSubmission uid fs d = (AddResult.err e, fs) := by
    intro d
    rcases h with h | h
    · exact ⟨"Database not ready.", by simp [addSubmission, h]⟩
    · by_cases hdb : fs.dbReady = false
      · exact ⟨"Database not ready.", by simp [addSubmission, hdb]⟩
      · exact ⟨fs.writeErrMsg, by simp [addSubmission, hdb, h]⟩
  obtain ⟨e1, he1⟩ := hadd (buildCustomData fc)
  obtain ⟨e2, he2⟩ := hadd (buildContactData ff)
  unfold customSubmit contactSubmit
  rw [he1, he2]
  by_cases hc : customRequiredOk fc = false <;>
    by_cases hf : contactRequiredOk ff = false <;>
      simp [hc, hf]

/-- Witness for C8 on a store whose writes fail. -/
theorem failure_preserves_form_witness :
    (fsWriteBad.dbReady = false ∨ fsWriteBad.writeFails = true) ∧
    ((customSubmit (some "u1") fsWriteBad customEx).1 = customEx ∧
      (contactSubmit (some "u1") fsWriteBad contactEx).1 = contactEx ∧
      (∀ i, (customSubmit (some "u1") fsWriteBad customEx).2.1 ≠
        SubmitOutcome.ok i) ∧
      (∀ i, (contactSubmit (some "u1") fsWriteBad contactEx).2.1 ≠
        SubmitOutcome.ok i)) :=
  ⟨Or.inr rfl,
    failure_preserves_form (some "u1") fsWriteBad customEx contactEx
      (Or.inr rfl)⟩

/-- C10: a submission attempt whose write succeeds resets the form to its
initial all-empty state, the custom form including the cleared attachment
descriptor. -/
theorem success_resets_form (uid : Option String) (fs : FireStore)
    (fc : CustomFormState) (ff : ContactFormState)
    (hc : customRequiredOk fc = true) (hf : contactRequiredOk ff = true)
    (h1 : fs.dbReady = true) (h2 : fs.writeFails = false) :
    (customSubmit uid fs fc).1 = customInitial ∧
    (contactSubmit uid fs ff).1 = contactInitial ∧
    customInitial.image = none ∧
    customInitial.name = "" ∧ contactInitial.message = "" := by
  unfold customSubmit contactSubmit addSubmission
  simp [hc, hf, h1, h2, customInitial, contactInitial]

/-- Witness for C10 on a working store. -/
theorem success_resets_form_witness :
    customRequiredOk customEx = true ∧
    contactRequiredOk contactEx = true ∧
    fsReady.dbReady = true ∧
    fsReady.writeFails = false ∧
    ((customSubmit (some "u1") fsReady customEx).1 = customInitial ∧
      (contactSubmit (some "u1") fsReady contactEx).1 = contactInitial ∧
      customInitial.image = none ∧
      customInitial.name = "" ∧ contactInitial.message = "") :=
  ⟨by decide, by decide, rfl, rfl,
    success_resets_form (some "u1") fsReady customEx contactEx (by decide)
      (by decide) rfl rfl⟩

end TwoXCustoms
